import Mathlib

/-!
Shallow embedding of the visa-application backend (Turkey visa intake plus
PayPal payment orchestration).

The definitions below are translated from the JavaScript source:

* the `Payment` mongoose schema and its methods (`canBeCaptured`,
  `canBeRefunded`, `addWebhookEvent`) and the `TurkeyApplication` schema and
  its `calculateTotalFee` method, from `src/models/TurkeyApplication.js`;
* the payment controller (`createPayPalOrder`, `capturePayPalOrder`,
  `handlePayPalWebhook`, `refundPayment`);
* the workflow controller (`startApplication`, `saveApplicantDetails`,
  `uploadDocuments`, `updateDocuments`, `addApplicant`, `updateApplicant`,
  `deleteApplicant`, `submitApplication`, `updateApplication`,
  `updateApplicantDetails`, `getApplication`);
* the PayPal service helper `parseWebhookEvent`.

Persistence (MongoDB via mongoose) is modelled as explicit lists of records;
`findOne` becomes `List.find?`, and `save` / `create` validate the schema
`status` enum exactly as mongoose does before writing.  External-gateway
results (order details, capture responses, refund responses, signature
verification) are inputs to the embedded functions, since the gateway is an
external collaborator.  Timestamps (`new Date()`) are an explicit `now : Nat`
parameter.  Field-level input validation (`validateData` with the zod
schemas) is abstracted as a boolean `validInput` input, since the claims
under study do not concern the individual field checks.
-/

/-- JavaScript truthiness for an optional string: `undefined`/`null` and the
empty string are falsy. -/
def jsTruthy : Option String → Bool
  | some s => !(s == "")
  | none => false

/-- JavaScript `a || b` for an optional numeric `a`: `undefined` and `0` both
fall back to `b`. -/
def jsOrNat : Option Nat → Nat → Nat
  | some a, b => if a == 0 then b else a
  | none, b => b

/-- Whether `pat` is an initial segment of `s` (character lists). -/
def startsWithChars : List Char → List Char → Bool
  | _, [] => true
  | [], _ :: _ => false
  | a :: as, b :: bs => a == b && startsWithChars as bs

/-- Whether `pat` occurs inside `s` (character lists). -/
def hasSubChars : List Char → List Char → Bool
  | [], pat => pat.isEmpty
  | a :: rest, pat => startsWithChars (a :: rest) pat || hasSubChars rest pat

/-- Substring test, modelling JavaScript `String.prototype.includes`. -/
def strContains (s pat : String) : Bool :=
  hasSubChars s.data pat.data

/-- Lowercasing, modelling JavaScript `String.prototype.toLowerCase` (and
the mongoose `lowercase: true` setter) on ASCII data. -/
def strToLower (s : String) : String :=
  ⟨s.data.map Char.toLower⟩

/-- Modelling `links.find(link => link.rel === 'approve')?.href` on the
gateway order payload: links are (rel, href) pairs. -/
def approveLink (links : List (String × String)) : Option String :=
  (links.find? (fun l => l.1 == "approve")).map (fun l => l.2)

/-- Normalized webhook event data, as produced by
`paypalService.parseWebhookEvent` (src PayPal service). -/
structure EventData where
  type : String
  orderId : Option String
  transactionId : Option String
  amount : Nat
  currency : Option String
  payerEmail : Option String
  reason : Option String
  refundAmount : Nat
  status : Option String
  deriving Repr, DecidableEq

/-- One entry of `paymentSchema.webhookEvents`: eventType, eventId (the
gateway-assigned identifier used for deduplication), the stored resource and
the `receivedAt` timestamp. -/
structure WebhookEventRecord where
  eventType : String
  eventId : String
  resource : EventData
  receivedAt : Nat
  deriving Repr, DecidableEq

/-- The persisted payment record (mongoose `paymentSchema`).  `metadata` is a
mixed bag in the source; the two metadata fields the controllers read and
write (`pendingCapture` and `capturedAt`) are modelled as explicit fields.
Monetary values are naturals. -/
structure Payment where
  paymentId : String
  applicationId : String
  provider : String
  orderId : String
  transactionId : Option String
  status : String
  amount : Nat
  currency : String
  payerEmail : Option String
  payerId : Option String
  payerFirst : Option String
  payerLast : Option String
  paymentMethod : Option String
  paypalFee : Option Nat
  webhookEvents : List WebhookEventRecord
  pendingCapture : Bool
  capturedAt : Option Nat
  idempotencyKey : Option String
  errorMessage : Option String
  refundedAt : Option Nat
  refundedAmount : Option Nat
  refundReason : Option String
  deriving Repr, DecidableEq

/-- The persisted application record (mongoose `turkeyApplicationSchema`).
The applicant sub-documents are abstracted to the presence flags and the
count that the controllers and the fee computation read. -/
structure TApp where
  applicationId : String
  passportCountry : String
  visaType : String
  destination : String
  email : String
  status : String
  currentStep : Nat
  visaFee : Nat
  serviceFee : Nat
  totalFee : Option Nat
  hasMainApplicant : Bool
  hasMainDocuments : Bool
  additionalApplicants : Nat
  submittedAt : Option Nat
  ipAddress : Option String
  userAgent : Option String
  deriving Repr, DecidableEq

/-- The gateway order payload as consumed by the controllers: `id`, `status`,
the HATEOAS `links`, and the fields read from
`purchase_units[0].payments.captures[0]` and `payer`. -/
structure GatewayOrder where
  id : String
  status : String
  links : List (String × String)
  captureId : Option String
  captureFee : Option Nat
  payerEmail : Option String
  payerId : Option String
  sourceName : Option String
  srbSourceName : Option String
  deriving Repr, DecidableEq

/-- The gateway capture response as consumed by the success path of
`capturePayPalOrder` (`purchase_units[0].payments.captures[0]` and `payer`).
The source reads `captures[0].id` without optional chaining. -/
structure GatewayCapture where
  captureId : String
  captureFee : Option Nat
  payerEmail : Option String
  payerId : Option String
  sourceName : Option String
  payerGiven : Option String
  payerSurname : Option String
  deriving Repr, DecidableEq

/-- An operational error as raised with `new AppError(message, statusCode)`. -/
structure AppErr where
  message : String
  statusCode : Nat
  deriving Repr, DecidableEq

/-- The `status` enum of the mongoose `paymentSchema`. -/
def paymentStatusEnum : List String :=
  ["CREATED", "APPROVED", "COMPLETED", "FAILED", "REFUNDED", "CANCELLED"]

/-- Whether a payment record satisfies the schema `status` enum constraint
(the constraint mongoose validates on every `save` and `create`). -/
def statusEnumOk (p : Payment) : Bool :=
  paymentStatusEnum.contains p.status

/-- Replace the stored record `p0` with the mutated in-memory document `p1`
(mongoose persists the same document identity on `save`). -/
def persist (db : List Payment) (p0 p1 : Payment) : List Payment :=
  db.map (fun q => if q = p0 then p1 else q)

/-- `document.save()`: mongoose validates the document (here: the `status`
enum) and on success writes it back; a validation failure throws. -/
def savePayment (db : List Payment) (p0 p1 : Payment) :
    Except String (List Payment) :=
  if statusEnumOk p1 then .ok (persist db p0 p1)
  else .error "status is not a valid enum value"

/-- `Payment.create(doc)`: validation as in `savePayment`, then insertion. -/
def paymentCreate (db : List Payment) (p : Payment) :
    Except String (List Payment) :=
  if statusEnumOk p then .ok (db ++ [p])
  else .error "status is not a valid enum value"

/-- `paymentSchema.methods.canBeCaptured`. -/
def canBeCaptured (p : Payment) : Bool :=
  p.status == "APPROVED"

/-- `paymentSchema.methods.canBeRefunded`. -/
def canBeRefunded (p : Payment) : Bool :=
  p.status == "COMPLETED" && p.refundedAt.isNone

/-- The pure part of `paymentSchema.methods.addWebhookEvent`: push the event
onto the log unless an entry with the same gateway event id already exists. -/
def addWebhookEventLocal (p : Payment) (eventType eventId : String)
    (resource : EventData) (now : Nat) : Payment :=
  if p.webhookEvents.any (fun e => e.eventId == eventId) then p
  else { p with webhookEvents :=
          p.webhookEvents ++ [⟨eventType, eventId, resource, now⟩] }

/-- `turkeyApplicationSchema.virtual('totalApplicants')`. -/
def totalApplicants (a : TApp) : Nat :=
  1 + a.additionalApplicants

/-- `turkeyApplicationSchema.methods.calculateTotalFee`:
`totalFee = visaFee * applicantCount + serviceFee * applicantCount`. -/
def calculateTotalFee (a : TApp) : TApp :=
  { a with
    totalFee := some (a.visaFee * totalApplicants a + a.serviceFee * totalApplicants a) }

/-- The application created by `startApplication` after the unique-id loop
succeeds: `status: 'started', currentStep: 1`, fees from the country fee
schedule, no applicants yet. -/
def startedApp (aid country vtype dest email : String) (vFee sFee : Nat)
    (ip ua : Option String) : TApp :=
  { applicationId := aid, passportCountry := country, visaType := vtype,
    destination := dest, email := email, status := "started", currentStep := 1,
    visaFee := vFee, serviceFee := sFee, totalFee := none,
    hasMainApplicant := false, hasMainDocuments := false,
    additionalApplicants := 0, submittedAt := none,
    ipAddress := ip, userAgent := ua }

/-- One workflow operation on an already-found application, as exposed by the
workflow controller routes.  Each `valid` flag abstracts the zod
`validateData` outcome for that request body; `idx` is the positional index
of the additional-applicant routes; `now` is the submission timestamp. -/
inductive AppOp where
  | saveDetails (valid : Bool)
  | uploadDocs (valid : Bool)
  | updateDocs (valid : Bool)
  | addApplicant (valid : Bool)
  | updateApplicant (idx : Nat) (valid : Bool)
  | deleteApplicant (idx : Nat)
  | submit (now : Nat)
  | updateApplication (valid supported : Bool) (country vtype dest email : String)
  | updateApplicantDetails (valid : Bool)
  deriving Repr, DecidableEq

/-- Apply one workflow operation to an application, mirroring the controller
bodies.  A request the controller rejects with an `AppError` leaves the
record unchanged (every rejection in the source happens before any write),
and is modelled as returning the input unchanged. -/
def applyOp (a : TApp) (op : AppOp) : TApp :=
  match op with
  | .saveDetails valid =>
      if ["started", "applicant_details_completed"].contains a.status then
        if valid then
          { a with hasMainApplicant := true,
                   status := "applicant_details_completed", currentStep := 3 }
        else a
      else a
  | .uploadDocs valid =>
      if a.hasMainApplicant then
        if a.status ≠ "applicant_details_completed" ∧ a.currentStep < 3 then a
        else if valid then
          { a with hasMainDocuments := true,
                   status := "documents_completed", currentStep := 4 }
        else a
      else a
  | .updateDocs valid =>
      -- replaces mainApplicant.documents in place; status and step untouched
      if a.hasMainApplicant ∧ a.hasMainDocuments ∧ valid then a else a
  | .addApplicant valid =>
      if a.status == "documents_completed" then
        if valid then
          { a with additionalApplicants := a.additionalApplicants + 1 }
        else a
      else a
  | .updateApplicant idx valid =>
      -- replaces the applicant at idx; the collection size is unchanged
      if idx < a.additionalApplicants ∧ valid then a else a
  | .deleteApplicant idx =>
      if idx < a.additionalApplicants then
        { a with additionalApplicants := a.additionalApplicants - 1 }
      else a
  | .submit now =>
      if a.status == "documents_completed" then
        if a.hasMainApplicant ∧ a.hasMainDocuments then
          { calculateTotalFee a with status := "submitted", submittedAt := some now }
        else a
      else a
  | .updateApplication valid supported country vtype dest email =>
      if valid then
        if supported then
          { a with passportCountry := country, visaType := vtype,
                   destination := dest, email := email }
        else a
      else a
  | .updateApplicantDetails valid =>
      -- replaces mainApplicant fields; status and step untouched
      if a.hasMainApplicant ∧ valid then a else a

/-- A sequence of workflow operations, applied in order. -/
def applyOps (a : TApp) (ops : List AppOp) : TApp :=
  ops.foldl applyOp a

/-- Reachability invariant of the workflow: the step counter stays in the
schema range 1..4, a `started` application is at step 1, and an
`applicant_details_completed` application is at step 3. -/
def AppInv (a : TApp) : Prop :=
  1 ≤ a.currentStep ∧ a.currentStep ≤ 4 ∧
    (a.status = "started" → a.currentStep = 1) ∧
    (a.status = "applicant_details_completed" → a.currentStep = 3)

deriving instance DecidableEq for Except

/-- The success payload of the payment-creation endpoint. -/
structure CreateResp where
  paymentId : String
  orderId : String
  approvalUrl : String
  status : String
  amount : Nat
  currency : String
  deriving Repr, DecidableEq

/-- Outcome of `createPayPalOrder`: the payment database after the call, the
HTTP-level result, and whether `paypalService.createOrder` was invoked. -/
structure CreateOutcome where
  db : List Payment
  response : Except AppErr CreateResp
  gatewayCreateCalled : Bool
  deriving Repr, DecidableEq

/-- The non-terminal statuses queried by `createPayPalOrder` when looking for
an existing payment on the application
(`status: { $in: ['PENDING', 'CREATED', 'APPROVED', 'COMPLETED'] }`). -/
def nonTerminalStatuses : List String :=
  ["PENDING", "CREATED", "APPROVED", "COMPLETED"]

/-- Predicate of the existing-payment lookup in `createPayPalOrder`. -/
def isNonTerminalFor (applicationId : String) (q : Payment) : Bool :=
  q.applicationId == applicationId && nonTerminalStatuses.contains q.status

/-- The reuse test applied to the found payment: a `PENDING` record whose
metadata carries the `pendingCapture` flag. -/
def reusablePending (q : Payment) : Bool :=
  q.status == "PENDING" && q.pendingCapture

/-- The document handed to `Payment.create` by `createPayPalOrder`: a fresh
payment with `status: 'PENDING'` and `metadata.pendingCapture: true`. -/
def newPendingPayment (paymentId applicationId : String) (order : GatewayOrder)
    (amount : Nat) (currency : String) (idemKey : String) : Payment :=
  { paymentId := paymentId, applicationId := applicationId,
    provider := "PAYPAL", orderId := order.id, transactionId := none,
    status := "PENDING", amount := amount, currency := currency,
    payerEmail := none, payerId := none, payerFirst := none, payerLast := none,
    paymentMethod := none, paypalFee := none, webhookEvents := [],
    pendingCapture := true, capturedAt := none, idempotencyKey := some idemKey,
    errorMessage := none, refundedAt := none, refundedAmount := none,
    refundReason := none }

/-- `createPayPalOrder` (payment controller).  `gatewayOrder` is the order
the gateway returns when `paypalService.createOrder` is invoked;
`reuseOrderDetails` is the payload of `paypalService.getOrder` on the reused
payment's order.  A mongoose validation failure surfaces through the error
middleware as a 400 `Validation Error`. -/
def createPayPalOrder (db : List Payment) (apps : List TApp)
    (applicationId : String) (amount : Nat) (currency : String)
    (validInput : Bool) (gatewayOrder reuseOrderDetails : GatewayOrder)
    (newPaymentId idemKey : String) : CreateOutcome :=
  if !validInput then ⟨db, .error ⟨"Validation failed", 400⟩, false⟩
  else
    match apps.find? (fun a => a.applicationId == applicationId) with
    | none => ⟨db, .error ⟨"Application not found", 404⟩, false⟩
    | some app =>
      if !(["documents_completed", "submitted", "paid"].contains app.status) then
        ⟨db, .error ⟨"Application is not ready for payment", 400⟩, false⟩
      else
        match db.find? (isNonTerminalFor applicationId) with
        | some existingPayment =>
          if reusablePending existingPayment then
            match approveLink reuseOrderDetails.links with
            | some url =>
                ⟨db, .ok ⟨existingPayment.paymentId, existingPayment.orderId,
                          url, existingPayment.status, amount, currency⟩, false⟩
            | none => ⟨db, .error ⟨"Failed to get PayPal approval URL", 500⟩, false⟩
          else ⟨db, .error ⟨"Payment already exists for this application", 400⟩, false⟩
        | none =>
          let p := newPendingPayment newPaymentId applicationId gatewayOrder
                     amount currency idemKey
          match paymentCreate db p with
          | .error m => ⟨db, .error ⟨"Validation Error: " ++ m, 400⟩, true⟩
          | .ok db1 =>
            match approveLink gatewayOrder.links with
            | some url =>
                ⟨db1, .ok ⟨p.paymentId, p.orderId, url, p.status,
                           amount, currency⟩, true⟩
            | none => ⟨db1, .error ⟨"Failed to get PayPal approval URL", 500⟩, true⟩

/-- The success payload of the capture endpoint, restricted to the fields the
specification claims mention (`paymentId`, `orderId`, `status`,
`transactionId`). -/
structure CaptureResp where
  paymentId : String
  orderId : String
  status : String
  transactionId : Option String
  deriving Repr, DecidableEq

/-- Outcome of `capturePayPalOrder`: both databases after the call, the
HTTP-level result, and whether `paypalService.captureOrder` was invoked. -/
structure CaptureOutcome where
  db : List Payment
  apps : List TApp
  response : Except AppErr CaptureResp
  captureCalled : Bool
  deriving Repr, DecidableEq

/-- The fields copied from an already-completed gateway order onto the
payment record (live-status `COMPLETED` branch of `capturePayPalOrder`):
`paymentMethod` is read from `captures[0].payment_source.paypal.name`. -/
def completedFromOrder (p : Payment) (o : GatewayOrder) : Payment :=
  { p with status := "COMPLETED", transactionId := o.captureId,
           paypalFee := o.captureFee, payerEmail := o.payerEmail,
           payerId := o.payerId, paymentMethod := o.sourceName }

/-- As `completedFromOrder`, but for the `ORDER_ALREADY_CAPTURED` recovery
branch, which reads `paymentMethod` from
`captures[0].seller_receivable_breakdown.payment_source.paypal.name`. -/
def completedFromOrderSrb (p : Payment) (o : GatewayOrder) : Payment :=
  { p with status := "COMPLETED", transactionId := o.captureId,
           paypalFee := o.captureFee, payerEmail := o.payerEmail,
           payerId := o.payerId, paymentMethod := o.srbSourceName }

/-- The fields copied from a successful gateway capture response onto the
payment record, including `metadata.capturedAt`. -/
def completedFromCapture (p : Payment) (c : GatewayCapture) (now : Nat) : Payment :=
  { p with status := "COMPLETED", transactionId := some c.captureId,
           paypalFee := c.captureFee, payerEmail := c.payerEmail,
           payerId := c.payerId, paymentMethod := c.sourceName,
           payerFirst := c.payerGiven, payerLast := c.payerSurname,
           capturedAt := some now }

/-- Persist the application in place of its previous version. -/
def persistApp (apps : List TApp) (a0 a1 : TApp) : List TApp :=
  apps.map (fun q => if q = a0 then a1 else q)

/-- `TurkeyApplication.findOne` then `application.status = 'paid'` when the
application is still `submitted` (capture success path and webhook
completed-event path). -/
def markPaidIfSubmitted (apps : List TApp) (applicationId : String) : List TApp :=
  match apps.find? (fun a => a.applicationId == applicationId) with
  | some a =>
      if a.status == "submitted" then
        persistApp apps a { a with status := "paid" }
      else apps
  | none => apps

/-- The payment record written by the capture `catch` block: status
`FAILED` with the error message recorded. -/
def failedRecord (p : Payment) (msg : String) : Payment :=
  { p with status := "FAILED", errorMessage := some msg }

/-- The `catch` block of `capturePayPalOrder`: set the payment to `FAILED`
with the error message recorded, save it, and re-raise as a 500 gateway
error.  (`FAILED` satisfies the schema enum, so this save succeeds; if
mongoose validation did reject it, the validation error would surface
instead.) -/
def captureCatch (db : List Payment) (apps : List TApp) (p : Payment)
    (msg : String) (captureCalled : Bool) : CaptureOutcome :=
  let p1 := failedRecord p msg
  match savePayment db p p1 with
  | .ok db1 => ⟨db1, apps, .error ⟨"Failed to capture PayPal payment", 500⟩, captureCalled⟩
  | .error m => ⟨db, apps, .error ⟨"Validation Error: " ++ m, 400⟩, captureCalled⟩

/-- `capturePayPalOrder` (payment controller).  `orderDetails` is the live
gateway order returned by `paypalService.getOrder`; `captureResult` is the
outcome of `paypalService.captureOrder` if it is invoked (an `Except`, since
the gateway call can fail, e.g. with an `ORDER_ALREADY_CAPTURED` error). -/
def capturePayPalOrder (db : List Payment) (apps : List TApp)
    (orderId applicationId : String) (validInput : Bool)
    (orderDetails : GatewayOrder) (captureResult : Except String GatewayCapture)
    (now : Nat) : CaptureOutcome :=
  if !validInput then ⟨db, apps, .error ⟨"Validation failed", 400⟩, false⟩
  else
    match db.find? (fun q => q.orderId == orderId && q.applicationId == applicationId) with
    | none => ⟨db, apps, .error ⟨"Payment record not found", 404⟩, false⟩
    | some payment =>
      let canProceed := canBeCaptured payment
      if orderDetails.status == "APPROVED" then
        -- reconcile the local status with the live gateway status
        let step : Except (String × List Payment × Payment) (List Payment × Payment) :=
          if !canProceed then
            let p1 := { payment with status := "APPROVED" }
            match savePayment db payment p1 with
            | .ok db1 => .ok (db1, p1)
            | .error m => .error (m, db, payment)
          else .ok (db, payment)
        match step with
        | .error (m, dbE, pE) => captureCatch dbE apps pE m false
        | .ok (db1, p1) =>
          match captureResult with
          | .error msg =>
            if strContains msg "ORDER_ALREADY_CAPTURED" then
              let p2 := completedFromOrderSrb p1 orderDetails
              match savePayment db1 p1 p2 with
              | .ok db2 =>
                  ⟨db2, apps, .ok ⟨p2.paymentId, orderId, "COMPLETED", p2.transactionId⟩, true⟩
              | .error m => captureCatch db1 apps p1 m true
            else captureCatch db1 apps p1 msg true
          | .ok cap =>
            let p2 := completedFromCapture p1 cap now
            match savePayment db1 p1 p2 with
            | .ok db2 =>
                let apps1 := markPaidIfSubmitted apps applicationId
                ⟨db2, apps1, .ok ⟨p2.paymentId, p2.orderId, "COMPLETED", p2.transactionId⟩, true⟩
            | .error m => captureCatch db1 apps p1 m true
      else if orderDetails.status == "COMPLETED" then
        -- order already captured out-of-band: record it and return success
        let p2 := completedFromOrder payment orderDetails
        match savePayment db payment p2 with
        | .ok db2 =>
            ⟨db2, apps, .ok ⟨p2.paymentId, orderId, "COMPLETED", p2.transactionId⟩, false⟩
        | .error m => captureCatch db apps payment m false
      else if orderDetails.status == "CREATED" then
        captureCatch db apps payment
          "Payment has not been approved by the user yet. Please complete the PayPal approval process."
          false
      else
        captureCatch db apps payment
          ("Invalid PayPal order status for capture: " ++ orderDetails.status) false

/-- The raw webhook body as consumed by `parseWebhookEvent`: the event id
(`webhookBody.id`), the event type, and the resource fields the parser
reads. -/
structure WebhookBody where
  id : String
  event_type : String
  resource_id : String
  resource_order_id : Option String
  resource_amount : Option Nat
  resource_currency : Option String
  resource_payee_email : Option String
  resource_reason : Option String
  deriving Repr, DecidableEq

/-- `paypalService.parseWebhookEvent`: normalize the gateway event into one
of `PAYMENT_COMPLETED`, `PAYMENT_DENIED`, `PAYMENT_REFUNDED`, or
`UNKNOWN_EVENT`. -/
def parseWebhookEvent (e : WebhookBody) : EventData :=
  if e.event_type == "PAYMENT.CAPTURE.COMPLETED" then
    { type := "PAYMENT_COMPLETED", orderId := e.resource_order_id,
      transactionId := some e.resource_id, amount := e.resource_amount.getD 0,
      currency := e.resource_currency, payerEmail := e.resource_payee_email,
      reason := none, refundAmount := 0, status := some "COMPLETED" }
  else if e.event_type == "PAYMENT.CAPTURE.DENIED" then
    { type := "PAYMENT_DENIED", orderId := e.resource_order_id,
      transactionId := some e.resource_id, amount := 0,
      currency := none, payerEmail := none, reason := e.resource_reason,
      refundAmount := 0, status := some "FAILED" }
  else if e.event_type == "PAYMENT.CAPTURE.REFUNDED" then
    { type := "PAYMENT_REFUNDED", orderId := e.resource_order_id,
      transactionId := some e.resource_id, amount := 0,
      currency := none, payerEmail := none, reason := none,
      refundAmount := e.resource_amount.getD 0, status := some "REFUNDED" }
  else
    { type := "UNKNOWN_EVENT", orderId := none, transactionId := none,
      amount := 0, currency := none, payerEmail := none, reason := none,
      refundAmount := 0, status := none }

/-- The status-update `switch` of `handlePayPalWebhook`, run on every
delivery (its `PAYMENT_COMPLETED` case is guarded by the already-completed
check; the other cases assign unconditionally, `PAYMENT_REFUNDED` stamping
`refundedAt` with the current time). -/
def applyWebhookEvent (p : Payment) (ed : EventData) (now : Nat) : Payment :=
  if ed.type == "PAYMENT_COMPLETED" then
    if !(p.status == "COMPLETED") then
      { p with status := "COMPLETED", transactionId := ed.transactionId,
               payerEmail := ed.payerEmail }
    else p
  else if ed.type == "PAYMENT_DENIED" then
    { p with status := "FAILED", errorMessage := ed.reason }
  else if ed.type == "PAYMENT_REFUNDED" then
    { p with status := "REFUNDED", refundedAt := some now,
             refundedAmount := some ed.refundAmount }
  else p

/-- The `try` block of `handlePayPalWebhook`: parse, locate the payment by
order id or transaction id, record the event (deduplicated) via
`addWebhookEvent` (which saves), apply the status switch, save again, and on
a completed event mark the application paid.  A thrown error carries the
state persisted so far. -/
def processWebhook (db : List Payment) (apps : List TApp) (body : WebhookBody)
    (now : Nat) :
    Except (String × List Payment × List TApp) (List Payment × List TApp) :=
  let ed := parseWebhookEvent body
  let found :=
    if jsTruthy ed.orderId then
      db.find? (fun q => q.orderId == ed.orderId.getD "")
    else if jsTruthy ed.transactionId then
      db.find? (fun q => q.transactionId == ed.transactionId)
    else none
  match found with
  | none => .ok (db, apps)
  | some payment =>
    let p1 := addWebhookEventLocal payment ed.type body.id ed now
    match savePayment db payment p1 with
    | .error m => .error (m, db, apps)
    | .ok db1 =>
      let p2 := applyWebhookEvent p1 ed now
      match savePayment db1 p1 p2 with
      | .error m => .error (m, db1, apps)
      | .ok db2 =>
        let apps1 :=
          if ed.type == "PAYMENT_COMPLETED" then
            markPaidIfSubmitted apps payment.applicationId
          else apps
        .ok (db2, apps1)

/-- Outcome of the webhook endpoint: HTTP status and both databases. -/
structure WebhookOutcome where
  httpStatus : Nat
  db : List Payment
  apps : List TApp
  deriving Repr, DecidableEq

/-- `handlePayPalWebhook`: reject with 400 when signature verification
fails (no state touched); otherwise run the processing inside `try`/`catch`
and acknowledge with 200 in both the success and the failure case. -/
def handlePayPalWebhook (db : List Payment) (apps : List TApp)
    (body : WebhookBody) (sigValid : Bool) (now : Nat) : WebhookOutcome :=
  if !sigValid then ⟨400, db, apps⟩
  else
    match processWebhook db apps body now with
    | .ok (db1, apps1) => ⟨200, db1, apps1⟩
    | .error (_, db1, apps1) => ⟨200, db1, apps1⟩

/-- The success payload of the refund endpoint. -/
structure RefundResp where
  paymentId : String
  refundAmount : Nat
  refundId : String
  refundedAt : Nat
  deriving Repr, DecidableEq

/-- Outcome of `refundPayment`. -/
structure RefundOutcome where
  db : List Payment
  response : Except AppErr RefundResp
  deriving Repr, DecidableEq

/-- `refundPayment` (payment controller).  `gatewayRefund` is the outcome of
`paypalService.refundPayment`, carrying the gateway refund id on success.
Any error inside the `try` (gateway failure or save failure) surfaces as a
500 `Failed to process refund`. -/
def refundPayment (db : List Payment) (paymentId : String)
    (amount : Option Nat) (reason : Option String) (validInput : Bool)
    (gatewayRefund : Except String String) (now : Nat) : RefundOutcome :=
  if !validInput then ⟨db, .error ⟨"Validation failed", 400⟩⟩
  else
    match db.find? (fun q => q.paymentId == paymentId) with
    | none => ⟨db, .error ⟨"Payment not found", 404⟩⟩
    | some payment =>
      if !(canBeRefunded payment) then
        ⟨db, .error ⟨"Payment cannot be refunded. Status: " ++ payment.status, 400⟩⟩
      else
        let refundAmount := jsOrNat amount payment.amount
        match gatewayRefund with
        | .error _ => ⟨db, .error ⟨"Failed to process refund", 500⟩⟩
        | .ok refundId =>
          let p1 := { payment with status := "REFUNDED", refundedAt := some now,
                                   refundedAmount := some refundAmount,
                                   refundReason := reason }
          match savePayment db payment p1 with
          | .ok db1 => ⟨db1, .ok ⟨payment.paymentId, refundAmount, refundId, now⟩⟩
          | .error _ => ⟨db, .error ⟨"Failed to process refund", 500⟩⟩

/-- The payment record written by a successful refund: status `REFUNDED`,
refund amount, reason and timestamp recorded. -/
def refundedRecord (p : Payment) (amt now : Nat) (reason : Option String) :
    Payment :=
  { p with status := "REFUNDED", refundedAt := some now,
           refundedAmount := some amt, refundReason := reason }

/-- The application as returned by `getApplication`: `toObject()` with the
internal `ipAddress` and `userAgent` fields deleted (this structure has no
such fields). -/
structure PublicApp where
  applicationId : String
  passportCountry : String
  visaType : String
  destination : String
  email : String
  status : String
  currentStep : Nat
  visaFee : Nat
  serviceFee : Nat
  totalFee : Option Nat
  hasMainApplicant : Bool
  hasMainDocuments : Bool
  additionalApplicants : Nat
  submittedAt : Option Nat
  deriving Repr, DecidableEq

/-- Strip the internal-only fields from an application record. -/
def toPublic (a : TApp) : PublicApp :=
  { applicationId := a.applicationId, passportCountry := a.passportCountry,
    visaType := a.visaType, destination := a.destination, email := a.email,
    status := a.status, currentStep := a.currentStep, visaFee := a.visaFee,
    serviceFee := a.serviceFee, totalFee := a.totalFee,
    hasMainApplicant := a.hasMainApplicant,
    hasMainDocuments := a.hasMainDocuments,
    additionalApplicants := a.additionalApplicants,
    submittedAt := a.submittedAt }

/-- Outcome of `getApplication`: HTTP status, the returned data if any, and
the error message if any. -/
structure GetAppOutcome where
  httpStatus : Nat
  data : Option PublicApp
  message : Option String
  deriving Repr, DecidableEq

/-- `getApplication` (workflow controller): look the application up by id;
when a (truthy) `email` query parameter is present and does not equal the
stored email after lowercasing, reject with 403; otherwise return the
record with `ipAddress` and `userAgent` removed. -/
def getApplication (apps : List TApp) (applicationId : String)
    (email : Option String) : GetAppOutcome :=
  if applicationId == "" then ⟨400, none, some "Application ID is required"⟩
  else
    match apps.find? (fun a => a.applicationId == applicationId) with
    | none => ⟨404, none, some "Application not found"⟩
    | some application =>
      if jsTruthy email && !(application.email == strToLower (email.getD "")) then
        ⟨403, none, some "Unauthorized access to application"⟩
      else ⟨200, some (toPublic application), none⟩

/-- A payment record in gateway-created state, used as a concrete database
content for witnesses. -/
def pCFix : Payment :=
  { paymentId := "PAY-1", applicationId := "A1", provider := "PAYPAL",
    orderId := "O1", transactionId := none, status := "CREATED", amount := 252,
    currency := "USD", payerEmail := none, payerId := none, payerFirst := none,
    payerLast := none, paymentMethod := none, paypalFee := none,
    webhookEvents := [], pendingCapture := false, capturedAt := none,
    idempotencyKey := none, errorMessage := none, refundedAt := none,
    refundedAmount := none, refundReason := none }

/-- A completed payment record (concrete witness data). -/
def pDoneFix : Payment :=
  { pCFix with status := "COMPLETED", transactionId := some "TX9" }

/-- A submitted application (concrete witness data). -/
def appFix : TApp :=
  { applicationId := "A1", passportCountry := "India",
    visaType := "Electronic Visa", destination := "Turkey",
    email := "user@example.com", status := "submitted", currentStep := 4,
    visaFee := 49, serviceFee := 35, totalFee := some 252,
    hasMainApplicant := true, hasMainDocuments := true,
    additionalApplicants := 2, submittedAt := some 5,
    ipAddress := some "1.2.3.4", userAgent := some "UA" }

/-- An application ready for submission (concrete witness data). -/
def appDocsFix : TApp :=
  { appFix with status := "documents_completed", totalFee := none,
                submittedAt := none }

/-- A live gateway order still in `CREATED` (concrete witness data). -/
def odCreatedFix : GatewayOrder :=
  { id := "O1", status := "CREATED", links := [("approve", "http://pay")],
    captureId := none, captureFee := none, payerEmail := none,
    payerId := none, sourceName := none, srbSourceName := none }

/-- A live gateway order already `COMPLETED` (concrete witness data). -/
def odDoneFix : GatewayOrder :=
  { odCreatedFix with status := "COMPLETED", captureId := some "TX9",
                      payerEmail := some "payer@example.com" }

/-- A live gateway order in `APPROVED` (concrete witness data). -/
def odApprovedFix : GatewayOrder :=
  { odDoneFix with status := "APPROVED" }

/-- A refunded-capture webhook body (concrete witness data). -/
def wbRefFix : WebhookBody :=
  { id := "EV1", event_type := "PAYMENT.CAPTURE.REFUNDED",
    resource_id := "TX9", resource_order_id := some "O1",
    resource_amount := some 252, resource_currency := some "USD",
    resource_payee_email := none, resource_reason := none }

/-- Number of payments on the application whose status lies in the
non-terminal query set of `createPayPalOrder`. -/
def nonTerminalCount (db : List Payment) (applicationId : String) : Nat :=
  (db.filter (isNonTerminalFor applicationId)).length

/-- The inner invalid-state message raised when the live gateway order is
still `CREATED`. -/
def notApprovedMsg : String :=
  "Payment has not been approved by the user yet. Please complete the PayPal approval process."

/-- The normalized event data of a `PAYMENT.CAPTURE.REFUNDED` webhook body. -/
def refundEventData (body : WebhookBody) : EventData :=
  { type := "PAYMENT_REFUNDED", orderId := body.resource_order_id,
    transactionId := some body.resource_id, amount := 0, currency := none,
    payerEmail := none, reason := none,
    refundAmount := body.resource_amount.getD 0, status := some "REFUNDED" }

/-- The event-log entry recorded for a refunded-capture webhook delivered at
time `t`. -/
def refundEventRecord (body : WebhookBody) (t : Nat) : WebhookEventRecord :=
  ⟨"PAYMENT_REFUNDED", body.id, refundEventData body, t⟩

/-- The payment record after a refunded-capture webhook whose log entry was
recorded at `tLog` and whose status switch last ran at `tApply`: exactly one
log entry, but `refundedAt` stamped with the latest delivery time. -/
def refundedByWebhook (p : Payment) (body : WebhookBody) (tLog tApply : Nat) :
    Payment :=
  { p with webhookEvents := p.webhookEvents ++ [refundEventRecord body tLog],
           status := "REFUNDED", refundedAt := some tApply,
           refundedAmount := some (body.resource_amount.getD 0) }

/-- Number of entries in the payment's webhook event log carrying the given
gateway event identifier. -/
def eventCount (p : Payment) (eid : String) : Nat :=
  (p.webhookEvents.filter (fun e => e.eventId == eid)).length

/-- The payment record with only the refund log entry appended (state after
`addWebhookEvent` on a first-seen refunded event). -/
def loggedByWebhook (p : Payment) (body : WebhookBody) (t : Nat) : Payment :=
  { p with webhookEvents := p.webhookEvents ++ [refundEventRecord body t] }

/-- A freshly started application satisfies the workflow invariant. -/
theorem appInv_startedApp (aid country vtype dest email : String)
    (vFee sFee : Nat) (ip ua : Option String) :
    AppInv (startedApp aid country vtype dest email vFee sFee ip ua) := by
  simp [AppInv, startedApp]

/-- Every workflow operation preserves the invariant and never decreases the
step counter. -/
theorem applyOp_inv_mono (a : TApp) (op : AppOp) (h : AppInv a) :
    AppInv (applyOp a op) ∧ a.currentStep ≤ (applyOp a op).currentStep := by
  obtain ⟨h1, h2, h3, h4⟩ := h
  have keep : AppInv a ∧ a.currentStep ≤ a.currentStep := ⟨⟨h1, h2, h3, h4⟩, le_refl _⟩
  cases op with
  | saveDetails valid =>
    simp only [applyOp]
    split
    · split
      · next hs hv =>
        have hor : a.status = "started" ∨ a.status = "applicant_details_completed" := by
          simpa using hs
        have hle : a.currentStep ≤ 3 := by
          rcases hor with hst | hst
          · have := h3 hst; omega
          · have := h4 hst; omega
        exact ⟨by simp [AppInv], hle⟩
      · exact keep
    · exact keep
  | uploadDocs valid =>
    simp only [applyOp]
    split
    · split
      · exact keep
      · split
        · exact ⟨by simp [AppInv], h2⟩
        · exact keep
    · exact keep
  | updateDocs valid =>
    simp only [applyOp]
    split <;> exact keep
  | addApplicant valid =>
    simp only [applyOp]
    split
    · split
      · exact ⟨⟨h1, h2, h3, h4⟩, le_refl _⟩
      · exact keep
    · exact keep
  | updateApplicant idx valid =>
    simp only [applyOp]
    split <;> exact keep
  | deleteApplicant idx =>
    simp only [applyOp]
    split
    · exact ⟨⟨h1, h2, h3, h4⟩, le_refl _⟩
    · exact keep
  | submit now =>
    simp only [applyOp]
    split
    · split
      · refine ⟨⟨h1, h2, ?_, ?_⟩, le_refl _⟩
        · intro hx; simp at hx
        · intro hx; simp at hx
      · exact keep
    · exact keep
  | updateApplication valid supported country vtype dest email =>
    simp only [applyOp]
    split
    · split
      · exact ⟨⟨h1, h2, h3, h4⟩, le_refl _⟩
      · exact keep
    · exact keep
  | updateApplicantDetails valid =>
    simp only [applyOp]
    split <;> exact keep

/-- The workflow invariant is preserved by any sequence of operations. -/
theorem applyOps_inv (a : TApp) (ops : List AppOp) (h : AppInv a) :
    AppInv (applyOps a ops) := by
  induction ops generalizing a with
  | nil => exact h
  | cons op tl ih =>
      exact ih (applyOp a op) (applyOp_inv_mono a op h).1

/-- If `find?` locates `p` in the database, then after persisting the mutated
document `p1` in place of `p`, `find?` with the same predicate locates `p1`,
provided `p1` still satisfies the predicate. -/
theorem find?_persist (pred : Payment → Bool) (db : List Payment)
    (p p1 : Payment) (h : db.find? pred = some p) (h1 : pred p1 = true) :
    (persist db p p1).find? pred = some p1 := by
  induction db with
  | nil => simp [List.find?] at h
  | cons q tl ih =>
    by_cases hq : pred q = true
    · have hqp : q = p := by
        rw [List.find?_cons_of_pos _ hq] at h
        exact Option.some.inj h
      subst hqp
      simp [persist, List.find?_cons_of_pos, h1]
    · have hpp : pred p = true := List.find?_some (by
        rw [List.find?_cons_of_neg _ hq] at h; exact h)
      have hqne : q ≠ p := fun he => hq (he ▸ hpp)
      rw [List.find?_cons_of_neg _ hq] at h
      have := ih h
      simpa [persist, hqne, List.find?_cons_of_neg _ hq] using this

/-- C6: for every application with visa fee `v`, service fee `s` and `n`
additional applicants, the total fee computed at submission equals
`(v + s) * (1 + n)` (a pure function of these inputs); in particular
`v = 49`, `s = 35`, `n = 2` gives 252. -/
theorem c6_total_fee_formula (a : TApp) (now : Nat)
    (hs : a.status = "documents_completed") (hm : a.hasMainApplicant = true)
    (hd : a.hasMainDocuments = true) :
    (applyOp a (.submit now)).totalFee =
      some ((a.visaFee + a.serviceFee) * (1 + a.additionalApplicants)) ∧
    (a.visaFee = 49 → a.serviceFee = 35 → a.additionalApplicants = 2 →
      (applyOp a (.submit now)).totalFee = some 252) := by
  constructor
  · simp [applyOp, hs, hm, hd, calculateTotalFee, totalApplicants]
    ring
  · intro h1 h2 h3
    simp [applyOp, hs, hm, hd, calculateTotalFee, totalApplicants, h1, h2, h3]

/-- Witness for C6 at a concrete submitted-ready application. -/
theorem c6_total_fee_formula_witness :
    (applyOp appDocsFix (.submit 7)).totalFee = some 252 :=
  (c6_total_fee_formula appDocsFix 7 rfl rfl rfl).2 rfl rfl rfl

/-- C8: the webhook endpoint acknowledges every delivery with HTTP 200 —
whatever the event type, whether a payment is found, and whether the
processing body throws — except that a signature-verification failure is
rejected with 400 and mutates neither the payment nor the application
store. -/
theorem c8_webhook_always_200_except_signature (db : List Payment)
    (apps : List TApp) (body : WebhookBody) (sigValid : Bool) (now : Nat) :
    (handlePayPalWebhook db apps body sigValid now).httpStatus =
      (if sigValid then 200 else 400) ∧
    (handlePayPalWebhook db apps body false now).db = db ∧
    (handlePayPalWebhook db apps body false now).apps = apps := by
  refine ⟨?_, by simp [handlePayPalWebhook], by simp [handlePayPalWebhook]⟩
  cases sigValid with
  | false => simp [handlePayPalWebhook]
  | true =>
    simp only [handlePayPalWebhook, Bool.not_true, Bool.false_eq_true,
      if_false, if_true]
    cases hp : processWebhook db apps body now with
    | ok v => cases v; rfl
    | error e => obtain ⟨m, rest⟩ := e; cases rest; rfl

/-- C9: starting an application sets step 1; across any sequence of workflow
operations the step counter stays within 1..4 and never decreases; saving
applicant details moves it to 3 and registering documents to 4. -/
theorem c9_current_step_monotone_bounded (aid country vtype dest email : String)
    (vFee sFee : Nat) (ip ua : Option String) (ops : List AppOp) (op : AppOp) :
    (startedApp aid country vtype dest email vFee sFee ip ua).currentStep = 1 ∧
    (applyOp (startedApp aid country vtype dest email vFee sFee ip ua)
      (.saveDetails true)).currentStep = 3 ∧
    (applyOps (startedApp aid country vtype dest email vFee sFee ip ua)
      [.saveDetails true, .uploadDocs true]).currentStep = 4 ∧
    1 ≤ (applyOps (startedApp aid country vtype dest email vFee sFee ip ua)
          ops).currentStep ∧
    (applyOps (startedApp aid country vtype dest email vFee sFee ip ua)
      ops).currentStep ≤ 4 ∧
    (applyOps (startedApp aid country vtype dest email vFee sFee ip ua)
      ops).currentStep ≤
      (applyOp (applyOps (startedApp aid country vtype dest email vFee sFee ip ua)
        ops) op).currentStep := by
  have hstart := appInv_startedApp aid country vtype dest email vFee sFee ip ua
  have hinv := applyOps_inv _ ops hstart
  refine ⟨rfl, ?_, ?_, hinv.1, hinv.2.1, (applyOp_inv_mono _ op hinv).2⟩
  · simp [applyOp, startedApp]
  · simp [applyOps, applyOp, startedApp]

/-- C10: `getApplication` answers 403 exactly when a (non-empty) `email`
query parameter is supplied that differs case-insensitively from the stored
(lowercased) email; with no email parameter it returns 200 and the full
record with only `ipAddress`/`userAgent` stripped (the `PublicApp` type has
no such fields), with no ownership check. -/
theorem c10_get_application_email_check (apps : List TApp) (aid : String)
    (a : TApp) (hid : (aid == "") = false)
    (hfind : apps.find? (fun x => x.applicationId == aid) = some a)
    (hlow : strToLower a.email = a.email) :
    (∀ e : String, (getApplication apps aid (some e)).httpStatus = 403 ↔
        (e ≠ "" ∧ strToLower a.email ≠ strToLower e)) ∧
    (getApplication apps aid none).httpStatus = 200 ∧
    (getApplication apps aid none).data = some (toPublic a) := by
  refine ⟨?_, ?_, ?_⟩
  · intro e
    by_cases he : e = ""
    · subst he
      simp [getApplication, hid, hfind, jsTruthy]
    · have het : (e == "") = false := by simpa using he
      by_cases hm : a.email = strToLower e
      · have hsame : strToLower a.email = strToLower e := by rw [hlow, hm]
        have hcond : (a.email == strToLower e) = true := by simpa using hm
        simp [getApplication, hid, hfind, jsTruthy, het, hcond, hsame]
      · have hne : strToLower a.email ≠ strToLower e := by rw [hlow]; exact hm
        have hcond : (a.email == strToLower e) = false := by simpa using hm
        simp [getApplication, hid, hfind, jsTruthy, het, hcond, he, hne]
  · simp [getApplication, hid, hfind, jsTruthy]
  · simp [getApplication, hid, hfind, jsTruthy]

/-- Witness for C10 at a concrete stored application: a mismatching email is
rejected with 403 and an omitted email returns the stripped record. -/
theorem c10_get_application_email_check_witness :
    (getApplication [appFix] "A1" (some "other@example.com")).httpStatus = 403 ∧
    (getApplication [appFix] "A1" none).httpStatus = 200 ∧
    (getApplication [appFix] "A1" none).data = some (toPublic appFix) := by
  have h := c10_get_application_email_check [appFix] "A1" appFix rfl rfl
    (by decide)
  exact ⟨(h.1 "other@example.com").mpr ⟨by decide, by decide⟩, h.2.1, h.2.2⟩

/-- C7: refund fails with an invalid-state 400 unless the payment is
`COMPLETED` with no recorded refund; a successful refund transitions the
record to `REFUNDED` with the refund timestamp, after which a second refund
attempt fails; an omitted amount defaults to the full captured amount. -/
theorem c7_refund_preconditions (db : List Payment) (pid : String)
    (p : Payment) (amount : Option Nat) (reason : Option String)
    (rid : String) (now now2 : Nat)
    (hfind : db.find? (fun q => q.paymentId == pid) = some p) :
    (canBeRefunded p = (p.status == "COMPLETED" && p.refundedAt.isNone)) ∧
    (∀ gw : Except String String, canBeRefunded p = false →
      refundPayment db pid amount reason true gw now =
        ⟨db, .error ⟨"Payment cannot be refunded. Status: " ++ p.status, 400⟩⟩) ∧
    (jsOrNat none p.amount = p.amount) ∧
    (p.status = "COMPLETED" → p.refundedAt = none →
      (refundPayment db pid amount reason true (.ok rid) now).response =
        .ok ⟨p.paymentId, jsOrNat amount p.amount, rid, now⟩ ∧
      (refundPayment db pid amount reason true (.ok rid) now).db =
        persist db p (refundedRecord p (jsOrNat amount p.amount) now reason) ∧
      (∀ (amt2 : Option Nat) (r2 : Option String) (gw2 : Except String String),
        (refundPayment (refundPayment db pid amount reason true (.ok rid) now).db
          pid amt2 r2 true gw2 now2).response =
          .error ⟨"Payment cannot be refunded. Status: REFUNDED", 400⟩)) := by
  refine ⟨rfl, ?_, by simp [jsOrNat], ?_⟩
  · intro gw hno
    simp [refundPayment, hfind, hno]
  · intro hst hrf
    have hok : canBeRefunded p = true := by
      simp [canBeRefunded, hst, hrf]
    have hsave :
        statusEnumOk (refundedRecord p (jsOrNat amount p.amount) now reason) = true := by
      simp [statusEnumOk, refundedRecord, paymentStatusEnum]
    refine ⟨?_, ?_, ?_⟩
    · simp [refundPayment, hfind, hok, savePayment, refundedRecord, hsave,
        statusEnumOk, paymentStatusEnum]
    · simp [refundPayment, hfind, hok, savePayment, refundedRecord, hsave,
        statusEnumOk, paymentStatusEnum]
    · intro amt2 r2 gw2
      have hdb : (refundPayment db pid amount reason true (.ok rid) now).db =
          persist db p (refundedRecord p (jsOrNat amount p.amount) now reason) := by
        simp [refundPayment, hfind, hok, savePayment, refundedRecord,
          statusEnumOk, paymentStatusEnum]
      rw [hdb]
      set pr := refundedRecord p (jsOrNat amount p.amount) now reason with hpr
      have hfind2 : (persist db p pr).find? (fun q => q.paymentId == pid) = some pr := by
        refine find?_persist _ db p _ hfind ?_
        simpa [hpr, refundedRecord] using List.find?_some hfind
      have hstat : pr.status = "REFUNDED" := by rw [hpr]; simp [refundedRecord]
      have hcbr : canBeRefunded pr = false := by simp [canBeRefunded, hstat]
      simp [refundPayment, hfind2, hcbr, hstat]

/-- Witness for C7 at a concrete completed payment: the refund succeeds with
the full captured amount by default and a second attempt is rejected. -/
theorem c7_refund_preconditions_witness :
    (refundPayment [pDoneFix] "PAY-1" none (some "customer request") true
      (.ok "RF1") 9).response = .ok ⟨"PAY-1", 252, "RF1", 9⟩ ∧
    (refundPayment (refundPayment [pDoneFix] "PAY-1" none (some "customer request")
        true (.ok "RF1") 9).db "PAY-1" none none true (.ok "RF2") 10).response =
      .error ⟨"Payment cannot be refunded. Status: REFUNDED", 400⟩ := by
  have h := c7_refund_preconditions [pDoneFix] "PAY-1" pDoneFix none
    (some "customer request") "RF1" 9 10 rfl
  obtain ⟨hresp, hdb, hsecond⟩ := h.2.2.2 rfl rfl
  exact ⟨hresp, hsecond none none (.ok "RF2")⟩

/-- `createPayPalOrder` never changes the stored payments: the reuse and
conflict branches do not write, and the fresh-payment branch hands a
`PENDING` record to `Payment.create`, which mongoose validation rejects. -/
theorem createPayPalOrder_db_eq (db : List Payment) (apps : List TApp)
    (aid : String) (amount : Nat) (currency : String) (validInput : Bool)
    (gw ro : GatewayOrder) (npid ik : String) :
    (createPayPalOrder db apps aid amount currency validInput gw ro npid ik).db
      = db := by
  cases validInput with
  | false => simp [createPayPalOrder]
  | true =>
    simp only [createPayPalOrder, Bool.not_true, Bool.false_eq_true, if_false]
    cases happ : apps.find? (fun a => a.applicationId == aid) with
    | none => rfl
    | some app =>
      by_cases hready :
          (["documents_completed", "submitted", "paid"].contains app.status) = true
      · simp only [hready, Bool.not_true, Bool.false_eq_true, if_false]
        cases hex : db.find? (isNonTerminalFor aid) with
        | some ep =>
          cases hre : reusablePending ep with
          | false => simp [hre]
          | true =>
            cases hurl : approveLink ro.links with
            | none => simp [hre, hurl]
            | some url => simp [hre, hurl]
        | none =>
          simp [paymentCreate, statusEnumOk, newPendingPayment, paymentStatusEnum]
      · have h3 : ¬app.status = "documents_completed" ∧ ¬app.status = "submitted"
            ∧ ¬app.status = "paid" := by
          simpa [not_or] using hready
        simp [h3.1, h3.2.1, h3.2.2]

/-- C5: `'PENDING'` is not a member of the payment schema status enum, yet
the create-order flow builds its new record with status `'PENDING'` and the
reusable flag; consequently the persistence step of order creation fails
mongoose validation (surfaced as a 400 `Validation Error`, with nothing
persisted), and no schema-conforming record can ever satisfy the
reusable-pending test. -/
theorem c5_pending_not_in_schema_enum (db : List Payment) (apps : List TApp)
    (aid : String) (amount : Nat) (currency : String) (gw ro : GatewayOrder)
    (npid ik : String) (app : TApp)
    (happ : apps.find? (fun a => a.applicationId == aid) = some app)
    (hready : (["documents_completed", "submitted", "paid"].contains app.status) = true)
    (hnone : db.find? (isNonTerminalFor aid) = none) :
    paymentStatusEnum.contains "PENDING" = false ∧
    (newPendingPayment npid aid gw amount currency ik).status = "PENDING" ∧
    (newPendingPayment npid aid gw amount currency ik).pendingCapture = true ∧
    statusEnumOk (newPendingPayment npid aid gw amount currency ik) = false ∧
    (createPayPalOrder db apps aid amount currency true gw ro npid ik).response
      = .error ⟨"Validation Error: status is not a valid enum value", 400⟩ ∧
    (createPayPalOrder db apps aid amount currency true gw ro npid ik).db = db ∧
    (∀ q : Payment, statusEnumOk q = true → reusablePending q = false) := by
  refine ⟨by decide, rfl, rfl, rfl, ?_, createPayPalOrder_db_eq _ _ _ _ _ _ _ _ _ _, ?_⟩
  · have hor : app.status = "documents_completed" ∨ app.status = "submitted"
        ∨ app.status = "paid" := by simpa using hready
    rcases hor with h | h | h <;>
      simp [createPayPalOrder, happ, hnone, h, paymentCreate, statusEnumOk,
        newPendingPayment, paymentStatusEnum]
  · intro q hq
    by_cases hps : q.status = "PENDING"
    · exfalso
      rw [statusEnumOk, hps] at hq
      simp [paymentStatusEnum] at hq
    · simp [reusablePending, hps]

/-- Witness for C5: with a submitted application and no existing payment the
create flow returns the validation error and stores nothing. -/
theorem c5_pending_not_in_schema_enum_witness :
    (createPayPalOrder [] [appFix] "A1" 252 "USD" true odCreatedFix odCreatedFix
      "PAY-2" "IK").response
      = .error ⟨"Validation Error: status is not a valid enum value", 400⟩ ∧
    (createPayPalOrder [] [appFix] "A1" 252 "USD" true odCreatedFix odCreatedFix
      "PAY-2" "IK").db = [] := by
  have h := c5_pending_not_in_schema_enum [] [appFix] "A1" 252 "USD"
    odCreatedFix odCreatedFix "PAY-2" "IK" appFix rfl rfl rfl
  exact ⟨h.2.2.2.2.1, h.2.2.2.2.2.1⟩

/-- C2: before creating a gateway order, `createPayPalOrder` looks for an
existing non-terminal payment on the application; if one exists the gateway
is not asked for a new order — the payment is reused when it is a
`PENDING` record flagged `pendingCapture`, and otherwise the call fails with
the conflict error — and in every case the at-most-one-non-terminal-payment
bound on the stored payments is preserved. -/
theorem c2_create_order_nonterminal_guard (db : List Payment) (apps : List TApp)
    (aid : String) (amount : Nat) (currency : String) (gw ro : GatewayOrder)
    (npid ik : String) (app : TApp)
    (happ : apps.find? (fun a => a.applicationId == aid) = some app)
    (hready : (["documents_completed", "submitted", "paid"].contains app.status) = true) :
    (createPayPalOrder db apps aid amount currency true gw ro npid ik).db = db ∧
    (nonTerminalCount db aid ≤ 1 →
      nonTerminalCount
        (createPayPalOrder db apps aid amount currency true gw ro npid ik).db aid ≤ 1) ∧
    (∀ ep : Payment, db.find? (isNonTerminalFor aid) = some ep →
      (createPayPalOrder db apps aid amount currency true gw ro npid ik).gatewayCreateCalled
        = false ∧
      (reusablePending ep = false →
        (createPayPalOrder db apps aid amount currency true gw ro npid ik).response
          = .error ⟨"Payment already exists for this application", 400⟩) ∧
      (reusablePending ep = true → ∀ url : String, approveLink ro.links = some url →
        (createPayPalOrder db apps aid amount currency true gw ro npid ik).response
          = .ok ⟨ep.paymentId, ep.orderId, url, ep.status, amount, currency⟩)) := by
  have hdb := createPayPalOrder_db_eq db apps aid amount currency true gw ro npid ik
  have hor : app.status = "documents_completed" ∨ app.status = "submitted"
      ∨ app.status = "paid" := by simpa using hready
  refine ⟨hdb, fun h => by rw [hdb]; exact h, ?_⟩
  intro ep hex
  refine ⟨?_, ?_, ?_⟩
  · cases hre : reusablePending ep with
    | false =>
      rcases hor with h | h | h <;> simp [createPayPalOrder, happ, h, hex, hre]
    | true =>
      cases hurl : approveLink ro.links with
      | none =>
        rcases hor with h | h | h <;>
          simp [createPayPalOrder, happ, h, hex, hre, hurl]
      | some url =>
        rcases hor with h | h | h <;>
          simp [createPayPalOrder, happ, h, hex, hre, hurl]
  · intro hre
    rcases hor with h | h | h <;> simp [createPayPalOrder, happ, h, hex, hre]
  · intro hre url hurl
    rcases hor with h | h | h <;>
      simp [createPayPalOrder, happ, h, hex, hre, hurl]

/-- Witness for C2: a `CREATED` payment already exists, so a second create
call is rejected with the conflict error and stores nothing new. -/
theorem c2_create_order_nonterminal_guard_witness :
    (createPayPalOrder [pCFix] [appFix] "A1" 252 "USD" true odCreatedFix
      odCreatedFix "PAY-2" "IK").response
      = .error ⟨"Payment already exists for this application", 400⟩ ∧
    (createPayPalOrder [pCFix] [appFix] "A1" 252 "USD" true odCreatedFix
      odCreatedFix "PAY-2" "IK").db = [pCFix] ∧
    (createPayPalOrder [pCFix] [appFix] "A1" 252 "USD" true odCreatedFix
      odCreatedFix "PAY-2" "IK").gatewayCreateCalled = false := by
  have h := c2_create_order_nonterminal_guard [pCFix] [appFix] "A1" 252 "USD"
    odCreatedFix odCreatedFix "PAY-2" "IK" appFix rfl rfl
  have he := h.2.2 pCFix rfl
  exact ⟨he.2.1 rfl, h.1, he.1⟩

/-- C1 as stated is false: the counterexample below shows the capture call
on a live-`CREATED` order mutating the persisted payment.  Amended C1: when
the live gateway order status is `CREATED`, the capture flow raises the
invalid-state condition internally, but the surrounding catch block persists
the payment as `FAILED` (with the invalid-state message recorded as the
error message) and re-raises a 500 gateway error; the gateway capture
operation is never invoked and the application store is untouched. -/
theorem c1_capture_created_marks_failed (db : List Payment) (apps : List TApp)
    (oid aid : String) (od : GatewayOrder)
    (cres : Except String GatewayCapture) (now : Nat) (p : Payment)
    (hfind : db.find? (fun q => q.orderId == oid && q.applicationId == aid)
      = some p)
    (hcr : od.status = "CREATED") :
    (capturePayPalOrder db apps oid aid true od cres now).response =
      .error ⟨"Failed to capture PayPal payment", 500⟩ ∧
    (capturePayPalOrder db apps oid aid true od cres now).captureCalled = false ∧
    (capturePayPalOrder db apps oid aid true od cres now).db =
      persist db p (failedRecord p notApprovedMsg) ∧
    (capturePayPalOrder db apps oid aid true od cres now).apps = apps := by
  refine ⟨?_, ?_, ?_, ?_⟩ <;>
    simp [capturePayPalOrder, hfind, hcr, captureCatch, savePayment,
      statusEnumOk, failedRecord, notApprovedMsg, paymentStatusEnum]

/-- Witness for the amended C1 at a concrete `CREATED` payment. -/
theorem c1_capture_created_marks_failed_witness :
    (capturePayPalOrder [pCFix] [appFix] "O1" "A1" true odCreatedFix
      (.error "boom") 0).response =
      .error ⟨"Failed to capture PayPal payment", 500⟩ ∧
    (capturePayPalOrder [pCFix] [appFix] "O1" "A1" true odCreatedFix
      (.error "boom") 0).db =
      persist [pCFix] pCFix (failedRecord pCFix notApprovedMsg) := by
  have h := c1_capture_created_marks_failed [pCFix] [appFix] "O1" "A1"
    odCreatedFix (.error "boom") 0 pCFix rfl rfl
  exact ⟨h.1, h.2.2.1⟩

/-- Counterexample to C1 as stated: for this concrete capture request on a
live-`CREATED` order, the persisted payment record is mutated (its status
becomes `FAILED`), and the surfaced failure is the generic 500 gateway
error, not the invalid-state condition. -/
theorem c1_capture_created_counterexample :
    (capturePayPalOrder [pCFix] [appFix] "O1" "A1" true odCreatedFix
      (.error "boom") 0).db ≠ [pCFix] ∧
    ((capturePayPalOrder [pCFix] [appFix] "O1" "A1" true odCreatedFix
      (.error "boom") 0).db.map (fun q => q.status)) = ["FAILED"] ∧
    (capturePayPalOrder [pCFix] [appFix] "O1" "A1" true odCreatedFix
      (.error "boom") 0).response =
      .error ⟨"Failed to capture PayPal payment", 500⟩ := by
  decide

/-- C4: when the live gateway order is already `COMPLETED`, capture returns
success carrying the transaction identifier taken from the gateway order
without invoking the gateway capture operation; a second capture call
against the same live order succeeds again with the identical transaction
identifier; and a gateway `ORDER_ALREADY_CAPTURED` error during capture of
an `APPROVED` order is converted into the same success response instead of
being surfaced. -/
theorem c4_capture_idempotent (db : List Payment) (apps : List TApp)
    (oid aid : String) (od odA : GatewayOrder)
    (cres cres2 : Except String GatewayCapture) (msg : String)
    (now now2 : Nat) (p : Payment)
    (hfind : db.find? (fun q => q.orderId == oid && q.applicationId == aid)
      = some p)
    (hC : od.status = "COMPLETED") (hA : odA.status = "APPROVED")
    (hmsg : strContains msg "ORDER_ALREADY_CAPTURED" = true) :
    (capturePayPalOrder db apps oid aid true od cres now).response =
      .ok ⟨p.paymentId, oid, "COMPLETED", od.captureId⟩ ∧
    (capturePayPalOrder db apps oid aid true od cres now).captureCalled = false ∧
    (capturePayPalOrder
        (capturePayPalOrder db apps oid aid true od cres now).db
        (capturePayPalOrder db apps oid aid true od cres now).apps
        oid aid true od cres2 now2).response =
      .ok ⟨p.paymentId, oid, "COMPLETED", od.captureId⟩ ∧
    (capturePayPalOrder db apps oid aid true odA (.error msg) now).response =
      .ok ⟨p.paymentId, oid, "COMPLETED", odA.captureId⟩ := by
  have hpred : (p.orderId == oid && p.applicationId == aid) = true := by
    simpa using List.find?_some hfind
  have h1db : (capturePayPalOrder db apps oid aid true od cres now).db =
      persist db p (completedFromOrder p od) := by
    simp [capturePayPalOrder, hfind, hC, savePayment, statusEnumOk,
      completedFromOrder, paymentStatusEnum]
  have h1apps : (capturePayPalOrder db apps oid aid true od cres now).apps
      = apps := by
    simp [capturePayPalOrder, hfind, hC, savePayment, statusEnumOk,
      completedFromOrder, paymentStatusEnum]
  refine ⟨?_, ?_, ?_, ?_⟩
  · simp [capturePayPalOrder, hfind, hC, savePayment, statusEnumOk,
      completedFromOrder, paymentStatusEnum]
  · simp [capturePayPalOrder, hfind, hC, savePayment, statusEnumOk,
      completedFromOrder, paymentStatusEnum]
  · rw [h1db, h1apps]
    set cfo := completedFromOrder p od with hcfo
    have hfind2 : (persist db p cfo).find?
        (fun q => q.orderId == oid && q.applicationId == aid) = some cfo := by
      refine find?_persist _ db p _ hfind ?_
      simpa [hcfo, completedFromOrder] using hpred
    have hpid : cfo.paymentId = p.paymentId := by
      rw [hcfo]; simp [completedFromOrder]
    simp [capturePayPalOrder, hfind2, hC, savePayment, statusEnumOk,
      completedFromOrder, paymentStatusEnum, hpid]
  · cases hcp : canBeCaptured p with
    | true =>
      simp [capturePayPalOrder, hfind, hA, hcp, hmsg, savePayment,
        statusEnumOk, completedFromOrderSrb, paymentStatusEnum]
    | false =>
      simp [capturePayPalOrder, hfind, hA, hcp, hmsg, savePayment,
        statusEnumOk, completedFromOrderSrb, paymentStatusEnum]

/-- Witness for C4 at a concrete already-completed gateway order (first and
second capture call) and a concrete `ORDER_ALREADY_CAPTURED` gateway error. -/
theorem c4_capture_idempotent_witness :
    (capturePayPalOrder [pCFix] [appFix] "O1" "A1" true odDoneFix
      (.error "x") 0).response = .ok ⟨"PAY-1", "O1", "COMPLETED", some "TX9"⟩ ∧
    (capturePayPalOrder
        (capturePayPalOrder [pCFix] [appFix] "O1" "A1" true odDoneFix
          (.error "x") 0).db
        (capturePayPalOrder [pCFix] [appFix] "O1" "A1" true odDoneFix
          (.error "x") 0).apps
        "O1" "A1" true odDoneFix (.error "x") 1).response =
      .ok ⟨"PAY-1", "O1", "COMPLETED", some "TX9"⟩ ∧
    (capturePayPalOrder [pCFix] [appFix] "O1" "A1" true odApprovedFix
      (.error "the call failed: ORDER_ALREADY_CAPTURED by webhook") 0).response =
      .ok ⟨"PAY-1", "O1", "COMPLETED", some "TX9"⟩ := by
  have h := c4_capture_idempotent [pCFix] [appFix] "O1" "A1" odDoneFix
    odApprovedFix (.error "x") (.error "x")
    "the call failed: ORDER_ALREADY_CAPTURED by webhook" 0 1 pCFix
    rfl rfl rfl (by decide)
  exact ⟨h.1, h.2.2.1, h.2.2.2⟩

/-- Counterexample to C3 as stated: redelivering this concrete refunded
webhook leaves exactly one log entry but is not a no-op on persisted state —
the second delivery overwrites `refundedAt` with the later delivery time. -/
theorem c3_webhook_dedup_counterexample :
    (handlePayPalWebhook
        (handlePayPalWebhook [pDoneFix] [appFix] wbRefFix true 1).db
        (handlePayPalWebhook [pDoneFix] [appFix] wbRefFix true 1).apps
        wbRefFix true 2).db ≠
      (handlePayPalWebhook [pDoneFix] [appFix] wbRefFix true 1).db ∧
    ((handlePayPalWebhook [pDoneFix] [appFix] wbRefFix true 1).db.map
      (fun q => q.refundedAt)) = [some 1] ∧
    ((handlePayPalWebhook
        (handlePayPalWebhook [pDoneFix] [appFix] wbRefFix true 1).db
        (handlePayPalWebhook [pDoneFix] [appFix] wbRefFix true 1).apps
        wbRefFix true 2).db.map (fun q => q.refundedAt)) = [some 2] ∧
    ((handlePayPalWebhook
        (handlePayPalWebhook [pDoneFix] [appFix] wbRefFix true 1).db
        (handlePayPalWebhook [pDoneFix] [appFix] wbRefFix true 1).apps
        wbRefFix true 2).db.map (fun q => eventCount q "EV1")) = [1] := by
  decide

/-- One verified delivery of a refunded-capture webhook, fully reduced: the
payment found by order id gets the (deduplicated) log write followed by the
status-switch write; the application store is untouched. -/
theorem webhook_refund_delivery (db : List Payment) (apps : List TApp)
    (body : WebhookBody) (oid : String) (q : Payment) (t : Nat)
    (ht : body.event_type = "PAYMENT.CAPTURE.REFUNDED")
    (ho : body.resource_order_id = some oid)
    (hoid : (oid == "") = false)
    (hfind : db.find? (fun x => x.orderId == oid) = some q)
    (hq : statusEnumOk q = true) :
    handlePayPalWebhook db apps body true t =
      ⟨200,
        persist
          (persist db q
            (addWebhookEventLocal q "PAYMENT_REFUNDED" body.id
              (refundEventData body) t))
          (addWebhookEventLocal q "PAYMENT_REFUNDED" body.id
            (refundEventData body) t)
          (applyWebhookEvent
            (addWebhookEventLocal q "PAYMENT_REFUNDED" body.id
              (refundEventData body) t)
            (refundEventData body) t),
        apps⟩ := by
  have hed : parseWebhookEvent body = refundEventData body := by
    simp [parseWebhookEvent, ht, refundEventData]
  have hstatus1 : statusEnumOk
      (addWebhookEventLocal q "PAYMENT_REFUNDED" body.id
        (refundEventData body) t) = true := by
    unfold addWebhookEventLocal statusEnumOk
    split <;> simpa [statusEnumOk] using hq
  have hstatus2 : statusEnumOk
      (applyWebhookEvent
        (addWebhookEventLocal q "PAYMENT_REFUNDED" body.id
          (refundEventData body) t)
        (refundEventData body) t) = true := by
    simp [applyWebhookEvent, refundEventData, statusEnumOk, paymentStatusEnum]
  have hgo : (refundEventData body).orderId = some oid := by
    simp [refundEventData, ho]
  have hgt : (refundEventData body).type = "PAYMENT_REFUNDED" := rfl
  simp [handlePayPalWebhook, processWebhook, hed, hgo, hgt, hoid, jsTruthy,
    hfind, savePayment, hstatus1, hstatus2]

/-- C3 as stated is false: the counterexample above shows a second delivery
of the same refunded event mutating persisted state.  Amended C3: delivering
the same verified webhook event twice yields exactly one entry in the
payment's event log (the event-identifier dedup guards only the log append),
but the status-update switch runs on every delivery — the duplicate
delivery re-applies the refund transition, overwriting `refundedAt` with the
later delivery time, so the second delivery is not a no-op on persisted
state (the status value itself is written only to `REFUNDED` both times). -/
theorem c3_webhook_dedup_log_once_refund_overwrites (db : List Payment)
    (apps : List TApp) (body : WebhookBody) (oid : String) (p : Payment)
    (t1 t2 : Nat)
    (ht : body.event_type = "PAYMENT.CAPTURE.REFUNDED")
    (ho : body.resource_order_id = some oid)
    (hoid : (oid == "") = false)
    (hfind : db.find? (fun x => x.orderId == oid) = some p)
    (hst : p.status = "COMPLETED")
    (hfresh : p.webhookEvents.any (fun e => e.eventId == body.id) = false) :
    (handlePayPalWebhook db apps body true t1).httpStatus = 200 ∧
    (handlePayPalWebhook (handlePayPalWebhook db apps body true t1).db
      (handlePayPalWebhook db apps body true t1).apps body true t2).httpStatus
      = 200 ∧
    (handlePayPalWebhook db apps body true t1).db.find?
      (fun x => x.orderId == oid) = some (refundedByWebhook p body t1 t1) ∧
    (handlePayPalWebhook (handlePayPalWebhook db apps body true t1).db
      (handlePayPalWebhook db apps body true t1).apps body true t2).db.find?
      (fun x => x.orderId == oid) = some (refundedByWebhook p body t1 t2) ∧
    eventCount (refundedByWebhook p body t1 t2) body.id = 1 ∧
    (t1 ≠ t2 →
      (handlePayPalWebhook (handlePayPalWebhook db apps body true t1).db
        (handlePayPalWebhook db apps body true t1).apps body true t2).db ≠
      (handlePayPalWebhook db apps body true t1).db) := by
  have hpredO : (p.orderId == oid) = true := by
    simpa using List.find?_some hfind
  have hq1 : statusEnumOk p = true := by
    simp [statusEnumOk, hst, paymentStatusEnum]
  have hL : addWebhookEventLocal p "PAYMENT_REFUNDED" body.id
      (refundEventData body) t1 = loggedByWebhook p body t1 := by
    simp [addWebhookEventLocal, hfresh, loggedByWebhook, refundEventRecord]
  have hR1 : applyWebhookEvent (loggedByWebhook p body t1)
      (refundEventData body) t1 = refundedByWebhook p body t1 t1 := by
    simp [applyWebhookEvent, refundEventData, loggedByWebhook,
      refundedByWebhook, refundEventRecord]
  have hd1 := webhook_refund_delivery db apps body oid p t1 ht ho hoid hfind hq1
  rw [hL, hR1] at hd1
  have hfindA : (persist db p (loggedByWebhook p body t1)).find?
      (fun x => x.orderId == oid) = some (loggedByWebhook p body t1) := by
    refine find?_persist _ db p _ hfind ?_
    simpa [loggedByWebhook] using hpredO
  have hfindB : (persist (persist db p (loggedByWebhook p body t1))
      (loggedByWebhook p body t1) (refundedByWebhook p body t1 t1)).find?
      (fun x => x.orderId == oid) = some (refundedByWebhook p body t1 t1) := by
    refine find?_persist _ _ _ _ hfindA ?_
    simpa [refundedByWebhook] using hpredO
  have hq2 : statusEnumOk (refundedByWebhook p body t1 t1) = true := by
    simp [statusEnumOk, refundedByWebhook, paymentStatusEnum]
  have hd2 := webhook_refund_delivery _ apps body oid
    (refundedByWebhook p body t1 t1) t2 ht ho hoid hfindB hq2
  have hany : (refundedByWebhook p body t1 t1).webhookEvents.any
      (fun e => e.eventId == body.id) = true := by
    simp [refundedByWebhook, refundEventRecord]
  have hL2 : addWebhookEventLocal (refundedByWebhook p body t1 t1)
      "PAYMENT_REFUNDED" body.id (refundEventData body) t2 =
      refundedByWebhook p body t1 t1 := by
    simp [addWebhookEventLocal, hany]
  have hR2 : applyWebhookEvent (refundedByWebhook p body t1 t1)
      (refundEventData body) t2 = refundedByWebhook p body t1 t2 := by
    simp [applyWebhookEvent, refundEventData, refundedByWebhook,
      refundEventRecord]
  rw [hL2, hR2] at hd2
  have hfindC : (persist (persist (persist db p (loggedByWebhook p body t1))
      (loggedByWebhook p body t1) (refundedByWebhook p body t1 t1))
      (refundedByWebhook p body t1 t1) (refundedByWebhook p body t1 t1)).find?
      (fun x => x.orderId == oid) = some (refundedByWebhook p body t1 t1) := by
    refine find?_persist _ _ _ _ hfindB ?_
    simpa [refundedByWebhook] using hpredO
  have hfindD : (persist (persist (persist (persist db p (loggedByWebhook p body t1))
      (loggedByWebhook p body t1) (refundedByWebhook p body t1 t1))
      (refundedByWebhook p body t1 t1) (refundedByWebhook p body t1 t1))
      (refundedByWebhook p body t1 t1) (refundedByWebhook p body t1 t2)).find?
      (fun x => x.orderId == oid) = some (refundedByWebhook p body t1 t2) := by
    refine find?_persist _ _ _ _ hfindC ?_
    simpa [refundedByWebhook] using hpredO
  have h3 : (handlePayPalWebhook db apps body true t1).db.find?
      (fun x => x.orderId == oid) = some (refundedByWebhook p body t1 t1) := by
    simp only [hd1]
    exact hfindB
  have h4 : (handlePayPalWebhook (handlePayPalWebhook db apps body true t1).db
      (handlePayPalWebhook db apps body true t1).apps body true t2).db.find?
      (fun x => x.orderId == oid) = some (refundedByWebhook p body t1 t2) := by
    simp only [hd1]
    simp only [hd2]
    exact hfindD
  have hcount : eventCount (refundedByWebhook p body t1 t2) body.id = 1 := by
    have hfil : p.webhookEvents.filter (fun e => e.eventId == body.id) = [] := by
      rw [List.filter_eq_nil_iff]
      intro e he
      have hall := List.any_eq_false.mp hfresh
      simpa using hall e he
    simp [eventCount, refundedByWebhook, refundEventRecord,
      List.filter_append, hfil]
  refine ⟨by simp only [hd1], by simp only [hd1, hd2], h3, h4, hcount, ?_⟩
  intro hne heq
  rw [heq] at h4
  rw [h3] at h4
  have hrec := Option.some.inj h4
  have : some t2 = some t1 := by
    calc some t2 = (refundedByWebhook p body t1 t2).refundedAt := by
          simp [refundedByWebhook]
      _ = (refundedByWebhook p body t1 t1).refundedAt := by rw [hrec]
      _ = some t1 := by simp [refundedByWebhook]
  exact hne (Option.some.inj this).symm

/-- Witness for the amended C3 at a concrete completed payment and refunded
webhook: both deliveries are acknowledged, the log holds one entry, and the
redelivery changed the persisted record. -/
theorem c3_webhook_dedup_log_once_refund_overwrites_witness :
    (handlePayPalWebhook [pDoneFix] [appFix] wbRefFix true 1).httpStatus = 200 ∧
    eventCount (refundedByWebhook pDoneFix wbRefFix 1 2) "EV1" = 1 ∧
    (handlePayPalWebhook (handlePayPalWebhook [pDoneFix] [appFix] wbRefFix true 1).db
      (handlePayPalWebhook [pDoneFix] [appFix] wbRefFix true 1).apps
      wbRefFix true 2).db ≠
      (handlePayPalWebhook [pDoneFix] [appFix] wbRefFix true 1).db := by
  have h := c3_webhook_dedup_log_once_refund_overwrites [pDoneFix] [appFix]
    wbRefFix "O1" pDoneFix 1 2 rfl rfl rfl rfl rfl rfl
  exact ⟨h.1, h.2.2.2.2.1, h.2.2.2.2.2 (by decide)⟩
